import Mathlib

/-!
Verification of the Food Donation Chatbot core (src/main.py).

We shallowly embed the conversation state machine, the message router
(`FoodDonationChatbot.process_message`), and the two external tool
functions (`find_recipients`, `log_donation_request`).  External
collaborators (Google Maps, Google Sheets) are modelled by explicit
environment records capturing exactly the observations the Python code
makes of them; the router is parameterised over the parsed responses of
the two clients, and records every client invocation in an effects list.
-/

set_option autoImplicit false

namespace Plateful

/-- Python whitespace (the characters matched by `str.strip` and `\s`
in `re`, restricted to ASCII). -/
def pyIsSpace (c : Char) : Bool :=
  c = ' ' || c = '\t' || c = '\n' || c = '\r' || c = '\x0b' || c = '\x0c'

/-- `str.strip()` on a character list: drop leading and trailing
whitespace. -/
def pyStripList (cs : List Char) : List Char :=
  ((cs.dropWhile pyIsSpace).reverse.dropWhile pyIsSpace).reverse

/-- `str.strip()` on strings. -/
def pyStrip (s : String) : String :=
  String.mk (pyStripList s.data)

/-- `str.lower()` (ASCII): lowercase every character. -/
def strToLower (s : String) : String :=
  String.mk (s.data.map Char.toLower)

/-- Substring containment on character lists (`pat in s` in Python). -/
def containsSub (s pat : List Char) : Bool :=
  match s with
  | [] => pat.isEmpty
  | _ :: rest => pat.isPrefixOf s || containsSub rest pat

/-- `pat in s` for strings. -/
def strContains (s pat : String) : Bool :=
  containsSub s.data pat.data

/-- `re.search(r'in\s(.+)', message, re.IGNORECASE)`: find the leftmost
position where `i`/`I` is followed by `n`/`N` and one whitespace
character, with at least one following non-newline character; the
capture group is the maximal run of non-newline characters after the
whitespace (`.` does not match newline, `+` is greedy and nothing
follows the group). Returns the capture group. -/
def reSearchInLoc : List Char → Option (List Char)
  | [] => none
  | c1 :: rest =>
    match rest with
    | c2 :: c3 :: rest2 =>
      if (c1 = 'i' || c1 = 'I') && (c2 = 'n' || c2 = 'N') && pyIsSpace c3
          && !(rest2.takeWhile (fun c => c ≠ '\n')).isEmpty then
        some (rest2.takeWhile (fun c => c ≠ '\n'))
      else reSearchInLoc rest
    | _ => none

/-- `location_match.group(1).strip()`: the extracted location of a
search message, if the `in ` marker regex matches. -/
def extractLocation (message : String) : Option String :=
  (reSearchInLoc message.data).map (fun cs => pyStrip (String.mk cs))

/-- An organization as built by `find_recipients` (the dict with keys
name, address, phone, website, rating). -/
structure Organization where
  name : String
  address : String
  phone : String
  website : String
  rating : String
deriving DecidableEq, Repr

/-- The parsed JSON response of the `find_recipients` tool, one
constructor per distinct JSON shape the function can return:
`{"recipients": [...]}`, `{"error": e}`, `{"api_error": true, "error": e}`
and `{"message": m}`. -/
inductive FindResponse where
  | recipients (orgs : List Organization)
  | errorResp (e : String)
  | apiError (e : String)
  | messageResp (m : String)
deriving DecidableEq, Repr

/-- The parsed JSON response of the `log_donation_request` tool:
`{"success": true, "message": m}` or `{"error": e}`. -/
inductive LogResult where
  | success (msg : String)
  | failure (err : String)
deriving DecidableEq, Repr

/-- The mutable `self.conversation_context` dict.  Missing keys read
through `.get` are falsy, so the three awaiting flags default to
`false` and the identity fields to `none`; `dict.clear()` returns all
fields to those defaults. -/
structure ConvContext where
  awaiting_user_name : Bool
  awaiting_user_phone : Bool
  awaiting_log_confirmation : Bool
  user_name : Option String
  user_phone : Option String
deriving DecidableEq, Repr

/-- The empty conversation context (`{}`, as set in `__init__` and by
`dict.clear()`). -/
def ConvContext.init : ConvContext :=
  ⟨false, false, false, none, none⟩

/-- The mutable state of a `FoodDonationChatbot` instance that
`process_message` reads and writes: the conversation context and the
organization cache. -/
structure ChatbotState where
  conversation_context : ConvContext
  cached_organizations : List Organization
deriving DecidableEq, Repr

/-- The state set up by `FoodDonationChatbot.__init__`:
`conversation_context = {}` and `cached_organizations = []`. -/
def ChatbotState.init : ChatbotState :=
  ⟨ConvContext.init, []⟩

/-- One external client invocation performed by the router.  The ledger
call carries the values the router reads back out of the context with
`.get` (hence `Option`), plus the cached organizations it serialises
into `organizations_json`. -/
inductive Effect where
  | lookupCall (location : String)
  | ledgerCall (user_name : Option String) (user_phone : Option String)
      (orgs : List Organization)
deriving DecidableEq, Repr

/-- The outcome of one `process_message` call: the returned string, the
chatbot state after the call, and the external client calls made. -/
structure RouteResult where
  response : String
  state : ChatbotState
  effects : List Effect
deriving DecidableEq, Repr

/-- `FoodDonationChatbot.format_organizations`, numbered from 1. -/
def formatOrgsFrom (i : Nat) : List Organization → String
  | [] => ""
  | org :: rest =>
    "🏢 **" ++ toString i ++ ". " ++ org.name ++ "**\n"
      ++ "   📍 Address: " ++ org.address ++ "\n"
      ++ "   📞 Phone: " ++ org.phone ++ "\n"
      ++ "   🌐 Website: " ++ org.website ++ "\n"
      ++ formatOrgsFrom (i + 1) rest

/-- `FoodDonationChatbot.format_organizations`. -/
def format_organizations (orgs : List Organization) : String :=
  if orgs.isEmpty then "No organizations found."
  else formatOrgsFrom 1 orgs

/-- Whether the message (lowercased, stripped) contains one of the
search-intent keywords of line 230. -/
def hasSearchKeyword (message_lower : String) : Bool :=
  strContains message_lower "find" || strContains message_lower "donate"
    || strContains message_lower "where can"

/-- The lookup-failure reply of line 251:
`result_data.get('error', 'Unknown issue')` interpolated into the
sorry-message.  The shapes without an `error` key (`recipients` and
`message`) fall back to `Unknown issue`. -/
def searchFailureMsg : FindResponse → String
  | .recipients _ => "I'm sorry, I couldn't find any organizations. Error: Unknown issue"
  | .errorResp e => "I'm sorry, I couldn't find any organizations. Error: " ++ e
  | .apiError e => "I'm sorry, I couldn't find any organizations. Error: " ++ e
  | .messageResp _ => "I'm sorry, I couldn't find any organizations. Error: Unknown issue"

/-- `FoodDonationChatbot.process_message`, parameterised over the two
external clients: `lookup` is the parsed response of
`find_recipients.invoke(location)` and `ledger` is the parsed response
of `log_donation_request.invoke(...)` on the given donor identity and
organizations.  Every client invocation is recorded in `effects`. -/
def process_message (lookup : String → FindResponse)
    (ledger : Option String → Option String → List Organization → LogResult)
    (s : ChatbotState) (message : String) : RouteResult :=
  let message_lower := pyStrip (strToLower message)
  let ctx := s.conversation_context
  if ctx.awaiting_user_name then
    { response := "Thank you. Now, what is your phone number?"
      state := { conversation_context :=
                   { ctx with user_name := some message,
                              awaiting_user_name := false,
                              awaiting_user_phone := true }
                 cached_organizations := s.cached_organizations }
      effects := [] }
  else if ctx.awaiting_user_phone then
    let ctx1 := { ctx with user_phone := some message, awaiting_user_phone := false }
    let log_result := ledger ctx1.user_name ctx1.user_phone s.cached_organizations
    { response :=
        match log_result with
        | .success m => "✅ " ++ m
        | .failure e => "❌ Error: " ++ e
      state := { conversation_context := ConvContext.init
                 cached_organizations := s.cached_organizations }
      effects := [Effect.ledgerCall ctx1.user_name ctx1.user_phone s.cached_organizations] }
  else if ctx.awaiting_log_confirmation then
    if message_lower = "yes" then
      { response := "Great! To proceed, please provide your name."
        state := { conversation_context :=
                     { ctx with awaiting_log_confirmation := false,
                                awaiting_user_name := true }
                   cached_organizations := s.cached_organizations }
        effects := [] }
    else
      { response := "Okay, I will not log this request. Is there anything else I can help you with?"
        state := { conversation_context := ConvContext.init
                   cached_organizations := s.cached_organizations }
        effects := [] }
  else if hasSearchKeyword message_lower then
    match extractLocation message with
    | none =>
      { response := "I can help with that! Please tell me the city you are in, for example: 'I want to donate in Delhi'."
        state := { conversation_context := ctx, cached_organizations := [] }
        effects := [] }
    | some location =>
      match lookup location with
      | .recipients orgs =>
        if orgs.isEmpty then
          { response := searchFailureMsg (.recipients orgs)
            state := { conversation_context := ctx, cached_organizations := [] }
            effects := [Effect.lookupCall location] }
        else
          { response :=
              "✅ I found these organizations in " ++ location ++ ":\n\n"
                ++ format_organizations orgs
                ++ "\n\n📝 **Would you like me to log this request with these organizations for you? (yes/no)**"
            state := { conversation_context :=
                         { ctx with awaiting_log_confirmation := true }
                       cached_organizations := orgs }
            effects := [Effect.lookupCall location] }
      | r =>
        { response := searchFailureMsg r
          state := { conversation_context := ctx, cached_organizations := [] }
          effects := [Effect.lookupCall location] }
  else
    { response := "I can help you find food donation centers. Please tell me what city you're in, like 'Where can I donate food in Delhi?'"
      state := s
      effects := [] }

/-- The raw place details the Google Places API hands back for one
nearby result: a `place_id` (skipped when absent) and the optional
detail fields read via `.get` with their defaults. -/
structure RawPlace where
  place_id : Option String
  name : Option String
  vicinity : Option String
  formatted_phone_number : Option String
  website : Option String
  rating : Option String
deriving DecidableEq, Repr

/-- The environment observed by `find_recipients`: the `GOOGLE_API_KEY`
env var, whether some API call inside the `try` block raises (with its
message), the geocode result list, and the `results` list of
`places_nearby` paired with the detail lookup of each place. -/
structure LookupEnv where
  api_key : Option String
  api_exception : Option String
  geocode_nonempty : Bool
  nearby_results : List RawPlace
deriving DecidableEq, Repr

/-- The organization dict built from one place's details (lines 79-85
of src/main.py). -/
def orgOfPlace (p : RawPlace) : Organization :=
  { name := p.name.getD "N/A"
    address := p.vicinity.getD "N/A"
    phone := p.formatted_phone_number.getD "Not available"
    website := p.website.getD "Not available"
    rating := p.rating.getD "N/A" }

/-- `find_recipients`: returns the parsed JSON shape produced for the
given environment and location.  The environment flag `api_exception`
stands for any exception raised by a Google API call inside the `try`
block; the remaining fields describe the successful call results. -/
def find_recipients (env : LookupEnv) (location : String) : FindResponse :=
  match env.api_key with
  | none => .errorResp "Google API key not found."
  | some _ =>
    match env.api_exception with
    | some e => .apiError e
    | none =>
      if !env.geocode_nonempty then
        .errorResp ("Could not find coordinates for '" ++ location ++ "'")
      else
        let detailed_recipients :=
          ((env.nearby_results.take 5).filter (fun p => p.place_id.isSome)).map orgOfPlace
        if detailed_recipients.isEmpty then
          .messageResp "No organizations found via Google Places API."
        else
          .recipients detailed_recipients

/-- The environment observed by `log_donation_request`: library
availability, the `GOOGLE_SHEET_ID` env var, presence of
`service_account.json` (its absence raises `FileNotFoundError`), any
other exception raised by a Sheets API call (with its message), whether
`sheet.get_all_values()` is empty, and the `time.ctime()` timestamp. -/
structure LedgerEnv where
  gspread_available : Bool
  sheet_id : Option String
  creds_file_present : Bool
  api_exception : Option String
  sheet_empty : Bool
  timestamp : String
deriving DecidableEq, Repr

/-- The observable outcome of one `log_donation_request` call: the
parsed JSON result, whether the header row was appended, and the data
rows appended to the sheet. -/
structure LedgerOutcome where
  result : LogResult
  header_appended : Bool
  appended_rows : List (List String)
deriving DecidableEq, Repr

/-- The row built for one organization (lines 128-135 of src/main.py). -/
def ledgerRow (user_name user_phone timestamp : String) (org : Organization) : List String :=
  [user_name, user_phone, org.name, org.phone, org.website, timestamp]

/-- `log_donation_request`: the organizations arrive as a JSON string
(`json.dumps` of the cache); since the dumps/loads round trip is the
identity on these dicts we pass the organization list directly. -/
def log_donation_request (env : LedgerEnv) (user_name user_phone : String)
    (organizations : List Organization) : LedgerOutcome :=
  if !env.gspread_available then
    ⟨.failure "gspread library not available. Cannot log to sheet.", false, []⟩
  else
    match env.sheet_id with
    | none => ⟨.failure "GOOGLE_SHEET_ID environment variable not set.", false, []⟩
    | some _ =>
      if !env.creds_file_present then
        ⟨.failure "service_account.json not found. Please ensure the file is in the correct directory.",
          false, []⟩
      else
        match env.api_exception with
        | some e =>
          ⟨.failure ("An error occurred while writing to the sheet: " ++ e), false, []⟩
        | none =>
          let rows_to_add := organizations.map (ledgerRow user_name user_phone env.timestamp)
          ⟨.success "Request logged successfully in the Google Sheet.",
            env.sheet_empty, rows_to_add⟩

/-- Whether any of the three pending-step flags of the conversation
context is active (`pendingStep != NONE` in the spec's terms). -/
def pendingActive (c : ConvContext) : Bool :=
  c.awaiting_user_name || c.awaiting_user_phone || c.awaiting_log_confirmation

/-- Whether an effect is an Organization Lookup Client invocation. -/
def isLookupCall : Effect → Bool
  | .lookupCall _ => true
  | .ledgerCall _ _ _ => false

/-- Whether a parsed lookup response fails to populate the cache: every
shape other than a non-empty `recipients` list. -/
def lookupFailed : FindResponse → Bool
  | .recipients orgs => orgs.isEmpty
  | .errorResp _ => true
  | .apiError _ => true
  | .messageResp _ => true

/-- A lookup client that always reports an error (used as a concrete
collaborator in witnesses). -/
def stubLookup : String → FindResponse :=
  fun _ => .errorResp "unavailable"

/-- A ledger client that always reports a failure (used as a concrete
collaborator in witnesses). -/
def stubLedger : Option String → Option String → List Organization → LogResult :=
  fun _ _ _ => .failure "unavailable"

/-- A concrete organization used in witnesses and counterexamples. -/
def orgA : Organization :=
  ⟨"Helping Hands", "12 Main St", "555-1234", "hh.example", "4.5"⟩

/-- A second concrete organization used in witnesses. -/
def orgB : Organization :=
  ⟨"Food Bank B", "3 Oak Ave", "555-9876", "fb.example", "4.0"⟩

theorem process_name_branch (lookup : String → FindResponse)
    (ledger : Option String → Option String → List Organization → LogResult)
    (b c : Bool) (un up : Option String) (cache : List Organization) (m : String) :
    process_message lookup ledger ⟨⟨true, b, c, un, up⟩, cache⟩ m =
      ⟨"Thank you. Now, what is your phone number?",
       ⟨⟨false, true, c, some m, up⟩, cache⟩, []⟩ := rfl

theorem process_phone_branch (lookup : String → FindResponse)
    (ledger : Option String → Option String → List Organization → LogResult)
    (c : Bool) (un up : Option String) (cache : List Organization) (m : String) :
    process_message lookup ledger ⟨⟨false, true, c, un, up⟩, cache⟩ m =
      ⟨(match ledger un (some m) cache with
        | .success msg => "✅ " ++ msg
        | .failure e => "❌ Error: " ++ e),
       ⟨ConvContext.init, cache⟩,
       [Effect.ledgerCall un (some m) cache]⟩ := rfl

theorem process_confirm_yes (lookup : String → FindResponse)
    (ledger : Option String → Option String → List Organization → LogResult)
    (un up : Option String) (cache : List Organization) (m : String)
    (hm : pyStrip (strToLower m) = "yes") :
    process_message lookup ledger ⟨⟨false, false, true, un, up⟩, cache⟩ m =
      ⟨"Great! To proceed, please provide your name.",
       ⟨⟨true, false, false, un, up⟩, cache⟩, []⟩ := by
  simp [process_message, hm]

theorem process_confirm_no (lookup : String → FindResponse)
    (ledger : Option String → Option String → List Organization → LogResult)
    (un up : Option String) (cache : List Organization) (m : String)
    (hm : pyStrip (strToLower m) ≠ "yes") :
    process_message lookup ledger ⟨⟨false, false, true, un, up⟩, cache⟩ m =
      ⟨"Okay, I will not log this request. Is there anything else I can help you with?",
       ⟨ConvContext.init, cache⟩, []⟩ := by
  simp [process_message, hm]

theorem process_clarify (lookup : String → FindResponse)
    (ledger : Option String → Option String → List Organization → LogResult)
    (un up : Option String) (cache : List Organization) (m : String)
    (hk : hasSearchKeyword (pyStrip (strToLower m)) = true)
    (hl : extractLocation m = none) :
    process_message lookup ledger ⟨⟨false, false, false, un, up⟩, cache⟩ m =
      ⟨"I can help with that! Please tell me the city you are in, for example: 'I want to donate in Delhi'.",
       ⟨⟨false, false, false, un, up⟩, []⟩, []⟩ := by
  simp [process_message, hk, hl]

theorem process_search_hit (lookup : String → FindResponse)
    (ledger : Option String → Option String → List Organization → LogResult)
    (un up : Option String) (cache : List Organization) (m loc : String)
    (orgs : List Organization)
    (hk : hasSearchKeyword (pyStrip (strToLower m)) = true)
    (hl : extractLocation m = some loc)
    (hr : lookup loc = .recipients orgs) (hne : orgs.isEmpty = false) :
    process_message lookup ledger ⟨⟨false, false, false, un, up⟩, cache⟩ m =
      ⟨"✅ I found these organizations in " ++ loc ++ ":\n\n"
         ++ format_organizations orgs
         ++ "\n\n📝 **Would you like me to log this request with these organizations for you? (yes/no)**",
       ⟨⟨false, false, true, un, up⟩, orgs⟩, [Effect.lookupCall loc]⟩ := by
  simp [process_message, hk, hl, hr, hne]

theorem process_search_miss (lookup : String → FindResponse)
    (ledger : Option String → Option String → List Organization → LogResult)
    (un up : Option String) (cache : List Organization) (m loc : String)
    (hk : hasSearchKeyword (pyStrip (strToLower m)) = true)
    (hl : extractLocation m = some loc)
    (hfail : ∀ orgs, lookup loc = .recipients orgs → orgs = []) :
    process_message lookup ledger ⟨⟨false, false, false, un, up⟩, cache⟩ m =
      ⟨searchFailureMsg (lookup loc),
       ⟨⟨false, false, false, un, up⟩, []⟩, [Effect.lookupCall loc]⟩ := by
  cases hr : lookup loc with
  | recipients orgs =>
    have : orgs = [] := hfail orgs hr
    subst this
    simp [process_message, hk, hl, hr, searchFailureMsg]
  | errorResp e => simp [process_message, hk, hl, hr, searchFailureMsg]
  | apiError e => simp [process_message, hk, hl, hr, searchFailureMsg]
  | messageResp msg => simp [process_message, hk, hl, hr, searchFailureMsg]

theorem process_help (lookup : String → FindResponse)
    (ledger : Option String → Option String → List Organization → LogResult)
    (un up : Option String) (cache : List Organization) (m : String)
    (hk : hasSearchKeyword (pyStrip (strToLower m)) = false) :
    process_message lookup ledger ⟨⟨false, false, false, un, up⟩, cache⟩ m =
      ⟨"I can help you find food donation centers. Please tell me what city you're in, like 'Where can I donate food in Delhi?'",
       ⟨⟨false, false, false, un, up⟩, cache⟩, []⟩ := by
  simp [process_message, hk]

/-- Claim C1 counterexample: in state AWAITING_LOG_CONFIRMATION with a
non-empty organization cache, routing "no" clears the conversation
context but leaves the cache holding `[orgA]` — it does NOT become
empty, contradicting the claim that the organization cache is
discarded on decline. -/
theorem C1_cache_not_discarded_counterexample :
    (process_message stubLookup stubLedger
        ⟨⟨false, false, true, none, none⟩, [orgA]⟩ "no").state.cached_organizations
      = [orgA]
    ∧ ([orgA] : List Organization) ≠ [] := by
  exact ⟨rfl, by simp⟩

/-- Claim C1 (amended): from AWAITING_LOG_CONFIRMATION, a message whose
trimmed lowercased form equals "yes" moves the context to
AWAITING_NAME; any other message returns the state to IDLE with the
conversation context discarded and the polite decline message
returned, while the organization cache is left unchanged (it is not
emptied; it is only replaced when the next search begins). -/
theorem C1_confirmation_step (lookup : String → FindResponse)
    (ledger : Option String → Option String → List Organization → LogResult)
    (un up : Option String) (cache : List Organization) (m : String) :
    (pyStrip (strToLower m) = "yes" →
      process_message lookup ledger ⟨⟨false, false, true, un, up⟩, cache⟩ m =
        ⟨"Great! To proceed, please provide your name.",
         ⟨⟨true, false, false, un, up⟩, cache⟩, []⟩)
    ∧ (pyStrip (strToLower m) ≠ "yes" →
      process_message lookup ledger ⟨⟨false, false, true, un, up⟩, cache⟩ m =
        ⟨"Okay, I will not log this request. Is there anything else I can help you with?",
         ⟨ConvContext.init, cache⟩, []⟩) :=
  ⟨process_confirm_yes lookup ledger un up cache m,
   process_confirm_no lookup ledger un up cache m⟩

/-- Claim C1 witness: the confirmation step evaluated at the concrete
inputs " Yes " (which advances) and "maybe" (which declines). -/
theorem C1_confirmation_step_witness :
    process_message stubLookup stubLedger
        ⟨⟨false, false, true, none, none⟩, [orgA]⟩ " Yes " =
      ⟨"Great! To proceed, please provide your name.",
       ⟨⟨true, false, false, none, none⟩, [orgA]⟩, []⟩
    ∧ process_message stubLookup stubLedger
        ⟨⟨false, false, true, none, none⟩, [orgA]⟩ "maybe" =
      ⟨"Okay, I will not log this request. Is there anything else I can help you with?",
       ⟨ConvContext.init, [orgA]⟩, []⟩ :=
  ⟨(C1_confirmation_step stubLookup stubLedger none none [orgA] " Yes ").1 (by decide),
   (C1_confirmation_step stubLookup stubLedger none none [orgA] "maybe").2 (by decide)⟩

/-- Claim C3: routing any message in state AWAITING_PHONE invokes the
Request Ledger Client (synchronously, as the single recorded effect of
the turn), clears the conversation context back to IDLE regardless of
the ledger outcome, leaves the cache as it was, and only the returned
message text differs between a successful and a failed ledger call. -/
theorem C3_phone_step_clears_state (lookup : String → FindResponse)
    (ledger : Option String → Option String → List Organization → LogResult)
    (c : Bool) (un up : Option String) (cache : List Organization) (m : String) :
    (process_message lookup ledger ⟨⟨false, true, c, un, up⟩, cache⟩ m).effects
      = [Effect.ledgerCall un (some m) cache]
    ∧ (process_message lookup ledger ⟨⟨false, true, c, un, up⟩, cache⟩ m).state
      = ⟨ConvContext.init, cache⟩
    ∧ (∀ msg, ledger un (some m) cache = .success msg →
        (process_message lookup ledger ⟨⟨false, true, c, un, up⟩, cache⟩ m).response
          = "✅ " ++ msg)
    ∧ (∀ e, ledger un (some m) cache = .failure e →
        (process_message lookup ledger ⟨⟨false, true, c, un, up⟩, cache⟩ m).response
          = "❌ Error: " ++ e) := by
  refine ⟨rfl, rfl, ?_, ?_⟩
  · intro msg hmsg
    rw [process_phone_branch, hmsg]
  · intro e he
    rw [process_phone_branch, he]

/-- Claim C3 witness: the phone step evaluated at a concrete state and
message, against the always-failing stub ledger; the state is still
cleared and the failure text is surfaced. -/
theorem C3_phone_step_clears_state_witness :
    (process_message stubLookup stubLedger
        ⟨⟨false, true, false, some "Asha", none⟩, [orgA]⟩ "555-0100").effects
      = [Effect.ledgerCall (some "Asha") (some "555-0100") [orgA]]
    ∧ (process_message stubLookup stubLedger
        ⟨⟨false, true, false, some "Asha", none⟩, [orgA]⟩ "555-0100").state
      = ⟨ConvContext.init, [orgA]⟩
    ∧ (process_message stubLookup stubLedger
        ⟨⟨false, true, false, some "Asha", none⟩, [orgA]⟩ "555-0100").response
      = "❌ Error: unavailable" :=
  ⟨(C3_phone_step_clears_state stubLookup stubLedger false (some "Asha") none [orgA] "555-0100").1,
   (C3_phone_step_clears_state stubLookup stubLedger false (some "Asha") none [orgA] "555-0100").2.1,
   (C3_phone_step_clears_state stubLookup stubLedger false (some "Asha") none [orgA] "555-0100").2.2.2
     "unavailable" rfl⟩

/-- Claim C9: invoking the Request Ledger Client with an empty
organization sequence, when the library, sheet id, credential file and
transport are all available, appends zero data rows and still reports
success. -/
theorem C9_empty_orgs_success (env : LedgerEnv) (user_name user_phone : String)
    (h1 : env.gspread_available = true) (h2 : env.sheet_id.isSome = true)
    (h3 : env.creds_file_present = true) (h4 : env.api_exception = none) :
    log_donation_request env user_name user_phone [] =
      ⟨.success "Request logged successfully in the Google Sheet.",
       env.sheet_empty, []⟩ := by
  obtain ⟨sid, hsid⟩ := Option.isSome_iff_exists.mp h2
  simp [log_donation_request, h1, h3, h4, hsid]

/-- Claim C9 witness: a concrete working environment with no cached
organizations: zero data rows, success reported. -/
theorem C9_empty_orgs_success_witness :
    log_donation_request ⟨true, some "sheet-1", true, none, false, "stamp"⟩ "Asha" "555-0100" [] =
      ⟨.success "Request logged successfully in the Google Sheet.", false, []⟩ :=
  C9_empty_orgs_success ⟨true, some "sheet-1", true, none, false, "stamp"⟩
    "Asha" "555-0100" rfl rfl rfl rfl

/-- Claim C10: the organization cache is only written in the
search-intent branch; whenever a pending step is active (confirmation,
name collection, phone collection/logging) or the message carries no
search keyword (generic help), routing leaves `cached_organizations`
exactly as it was. -/
theorem C10_cache_frame (lookup : String → FindResponse)
    (ledger : Option String → Option String → List Organization → LogResult)
    (s : ChatbotState) (m : String)
    (h : pendingActive s.conversation_context = true
        ∨ hasSearchKeyword (pyStrip (strToLower m)) = false) :
    (process_message lookup ledger s m).state.cached_organizations
      = s.cached_organizations := by
  obtain ⟨⟨a, b, c, un, up⟩, cache⟩ := s
  cases a with
  | true => rw [process_name_branch]
  | false =>
    cases b with
    | true => rw [process_phone_branch]
    | false =>
      cases c with
      | true =>
        by_cases hm : pyStrip (strToLower m) = "yes"
        · rw [process_confirm_yes lookup ledger un up cache m hm]
        · rw [process_confirm_no lookup ledger un up cache m hm]
      | false =>
        have hk : hasSearchKeyword (pyStrip (strToLower m)) = false := by
          rcases h with h | h
          · simp [pendingActive] at h
          · exact h
        rw [process_help lookup ledger un up cache m hk]

/-- Claim C10 witness: even a message full of search keywords leaves
the cache untouched while the phone step is pending. -/
theorem C10_cache_frame_witness :
    (process_message stubLookup stubLedger
        ⟨⟨false, true, false, some "Asha", none⟩, [orgA, orgB]⟩
        "find food donate where can in Delhi").state.cached_organizations
      = [orgA, orgB] :=
  C10_cache_frame stubLookup stubLedger
    ⟨⟨false, true, false, some "Asha", none⟩, [orgA, orgB]⟩
    "find food donate where can in Delhi" (Or.inl rfl)

theorem isEmpty_true_eq_nil {α : Type} {l : List α} (h : l.isEmpty = true) : l = [] := by
  cases l <;> simp_all

theorem process_search_effects (lookup : String → FindResponse)
    (ledger : Option String → Option String → List Organization → LogResult)
    (un up : Option String) (cache : List Organization) (m loc : String)
    (hk : hasSearchKeyword (pyStrip (strToLower m)) = true)
    (hl : extractLocation m = some loc) :
    (process_message lookup ledger ⟨⟨false, false, false, un, up⟩, cache⟩ m).effects
      = [Effect.lookupCall loc] := by
  cases hr : lookup loc with
  | recipients orgs =>
    cases ho : orgs.isEmpty with
    | false => rw [process_search_hit lookup ledger un up cache m loc orgs hk hl hr ho]
    | true =>
      have hf : ∀ orgs', lookup loc = .recipients orgs' → orgs' = [] := by
        intro orgs' hr'
        rw [hr] at hr'
        injection hr' with h
        subst h
        exact isEmpty_true_eq_nil ho
      rw [process_search_miss lookup ledger un up cache m loc hk hl hf]
  | errorResp e =>
    have hf : ∀ orgs', lookup loc = .recipients orgs' → orgs' = [] := by
      intro orgs' hr'
      rw [hr] at hr'
      simp at hr'
    rw [process_search_miss lookup ledger un up cache m loc hk hl hf]
  | apiError e =>
    have hf : ∀ orgs', lookup loc = .recipients orgs' → orgs' = [] := by
      intro orgs' hr'
      rw [hr] at hr'
      simp at hr'
    rw [process_search_miss lookup ledger un up cache m loc hk hl hf]
  | messageResp msg =>
    have hf : ∀ orgs', lookup loc = .recipients orgs' → orgs' = [] := by
      intro orgs' hr'
      rw [hr] at hr'
      simp at hr'
    rw [process_search_miss lookup ledger un up cache m loc hk hl hf]

/-- Claim C2: with any non-empty organization cache, the flow
AWAITING_LOG_CONFIRMATION —"yes"→ name → phone invokes the Request
Ledger Client once with exactly the cached organizations and the
collected donor identity, ends with the conversation context at IDLE,
and (for any working ledger environment) the client appends exactly one
row per cached organization, in cache order, each row carrying that
donor name and phone. -/
theorem C2_full_logging_flow (lookup : String → FindResponse)
    (ledger : Option String → Option String → List Organization → LogResult)
    (un up : Option String) (orgs : List Organization)
    (donor_name donor_phone : String) (env : LedgerEnv)
    (_hne : orgs ≠ [])
    (h1 : env.gspread_available = true) (h2 : env.sheet_id.isSome = true)
    (h3 : env.creds_file_present = true) (h4 : env.api_exception = none) :
    (process_message lookup ledger
        (process_message lookup ledger
            (process_message lookup ledger
                ⟨⟨false, false, true, un, up⟩, orgs⟩ "yes").state
            donor_name).state
        donor_phone).effects
      = [Effect.ledgerCall (some donor_name) (some donor_phone) orgs]
    ∧ (process_message lookup ledger
        (process_message lookup ledger
            (process_message lookup ledger
                ⟨⟨false, false, true, un, up⟩, orgs⟩ "yes").state
            donor_name).state
        donor_phone).state.conversation_context = ConvContext.init
    ∧ (log_donation_request env donor_name donor_phone orgs).appended_rows
        = orgs.map (ledgerRow donor_name donor_phone env.timestamp)
    ∧ (log_donation_request env donor_name donor_phone orgs).appended_rows.length
        = orgs.length
    ∧ (log_donation_request env donor_name donor_phone orgs).result
        = .success "Request logged successfully in the Google Sheet." := by
  have hyes : pyStrip (strToLower "yes") = "yes" := by decide
  have e1 := process_confirm_yes lookup ledger un up orgs "yes" hyes
  obtain ⟨sid, hsid⟩ := Option.isSome_iff_exists.mp h2
  refine ⟨?_, ?_, ?_, ?_, ?_⟩
  · simp only [e1, process_name_branch, process_phone_branch]
  · simp only [e1, process_name_branch, process_phone_branch]
  · simp [log_donation_request, h1, h3, h4, hsid]
  · simp [log_donation_request, h1, h3, h4, hsid]
  · simp [log_donation_request, h1, h3, h4, hsid]

/-- Claim C2 witness: the flow evaluated on a concrete two-element
cache with donor "Asha" / "555-0100" and a concrete working ledger
environment. -/
theorem C2_full_logging_flow_witness :
    (process_message stubLookup stubLedger
        (process_message stubLookup stubLedger
            (process_message stubLookup stubLedger
                ⟨⟨false, false, true, none, none⟩, [orgA, orgB]⟩ "yes").state
            "Asha").state
        "555-0100").effects
      = [Effect.ledgerCall (some "Asha") (some "555-0100") [orgA, orgB]]
    ∧ (log_donation_request ⟨true, some "sheet-1", true, none, false, "stamp"⟩
          "Asha" "555-0100" [orgA, orgB]).appended_rows
      = [orgA, orgB].map (ledgerRow "Asha" "555-0100" "stamp") :=
  ⟨(C2_full_logging_flow stubLookup stubLedger none none [orgA, orgB] "Asha" "555-0100"
      ⟨true, some "sheet-1", true, none, false, "stamp"⟩ (by simp) rfl rfl rfl rfl).1,
   (C2_full_logging_flow stubLookup stubLedger none none [orgA, orgB] "Asha" "555-0100"
      ⟨true, some "sheet-1", true, none, false, "stamp"⟩ (by simp) rfl rfl rfl rfl).2.2.1⟩

/-- Claim C4: a search-intent message routed from IDLE empties the
cache before any lookup (so even the clarification path, where no
client is called, leaves it empty), and when the lookup fails — error
payload, api error, message payload, or empty recipients — the cache
stays empty, the conversation context is unchanged (no advance past
IDLE), and the user-facing failure text is returned. -/
theorem C4_failed_search_leaves_idle (lookup : String → FindResponse)
    (ledger : Option String → Option String → List Organization → LogResult)
    (un up : Option String) (cache : List Organization) (m : String)
    (hk : hasSearchKeyword (pyStrip (strToLower m)) = true)
    (hfail : ∀ loc, extractLocation m = some loc → lookupFailed (lookup loc) = true) :
    (process_message lookup ledger ⟨⟨false, false, false, un, up⟩, cache⟩ m).state.cached_organizations
      = []
    ∧ (process_message lookup ledger ⟨⟨false, false, false, un, up⟩, cache⟩ m).state.conversation_context
      = ⟨false, false, false, un, up⟩
    ∧ (extractLocation m = none →
        (process_message lookup ledger ⟨⟨false, false, false, un, up⟩, cache⟩ m).response
          = "I can help with that! Please tell me the city you are in, for example: 'I want to donate in Delhi'."
        ∧ (process_message lookup ledger ⟨⟨false, false, false, un, up⟩, cache⟩ m).effects = [])
    ∧ (∀ loc, extractLocation m = some loc →
        (process_message lookup ledger ⟨⟨false, false, false, un, up⟩, cache⟩ m).response
          = searchFailureMsg (lookup loc)) := by
  cases hl : extractLocation m with
  | none =>
    rw [process_clarify lookup ledger un up cache m hk hl]
    refine ⟨rfl, rfl, fun _ => ⟨rfl, rfl⟩, ?_⟩
    intro loc hsome
    exact Option.noConfusion hsome
  | some loc =>
    have hf : ∀ orgs, lookup loc = .recipients orgs → orgs = [] := by
      intro orgs hr
      have hfl := hfail loc hl
      rw [hr] at hfl
      exact isEmpty_true_eq_nil hfl
    rw [process_search_miss lookup ledger un up cache m loc hk hl hf]
    refine ⟨rfl, rfl, ?_, ?_⟩
    · intro hnone
      exact Option.noConfusion hnone
    · intro loc' hsome
      injection hsome with h
      subst h
      rfl

/-- Claim C4 witness: the concrete search message
"Where can I donate food in Delhi" against the always-erroring stub
lookup: empty cache, unchanged context, failure text surfaced. -/
theorem C4_failed_search_leaves_idle_witness :
    (process_message stubLookup stubLedger
        ⟨⟨false, false, false, none, none⟩, [orgA]⟩
        "Where can I donate food in Delhi").state.cached_organizations = []
    ∧ (process_message stubLookup stubLedger
        ⟨⟨false, false, false, none, none⟩, [orgA]⟩
        "Where can I donate food in Delhi").state.conversation_context
      = ⟨false, false, false, none, none⟩
    ∧ (process_message stubLookup stubLedger
        ⟨⟨false, false, false, none, none⟩, [orgA]⟩
        "Where can I donate food in Delhi").response
      = "I'm sorry, I couldn't find any organizations. Error: unavailable" :=
  ⟨(C4_failed_search_leaves_idle stubLookup stubLedger none none [orgA]
      "Where can I donate food in Delhi" (by decide) (fun _ _ => rfl)).1,
   (C4_failed_search_leaves_idle stubLookup stubLedger none none [orgA]
      "Where can I donate food in Delhi" (by decide) (fun _ _ => rfl)).2.1,
   (C4_failed_search_leaves_idle stubLookup stubLedger none none [orgA]
      "Where can I donate food in Delhi" (by decide) (fun _ _ => rfl)).2.2.2
     "Delhi" (by decide)⟩

/-- Claim C8: from a state with no pending step, routing a message
whose processing makes no client call (no lookup, no log) is
idempotent: routing the same message again from the resulting state
produces the identical response, again with no client call. -/
theorem C8_idle_route_idempotent (lookup : String → FindResponse)
    (ledger : Option String → Option String → List Organization → LogResult)
    (s : ChatbotState) (m : String)
    (hpend : pendingActive s.conversation_context = false)
    (heff : (process_message lookup ledger s m).effects = []) :
    (process_message lookup ledger (process_message lookup ledger s m).state m).response
      = (process_message lookup ledger s m).response
    ∧ (process_message lookup ledger (process_message lookup ledger s m).state m).effects
      = [] := by
  obtain ⟨⟨a, b, c, un, up⟩, cache⟩ := s
  simp only [pendingActive] at hpend
  obtain ⟨ha, hb, hc⟩ : a = false ∧ b = false ∧ c = false := by
    cases a <;> cases b <;> cases c <;> simp_all
  subst ha
  subst hb
  subst hc
  cases hk : hasSearchKeyword (pyStrip (strToLower m)) with
  | false =>
    simp only [process_help lookup ledger un up cache m hk]
    exact ⟨trivial, trivial⟩
  | true =>
    cases hl : extractLocation m with
    | none =>
      simp only [process_clarify lookup ledger un up cache m hk hl,
        process_clarify lookup ledger un up ([] : List Organization) m hk hl]
      exact ⟨trivial, trivial⟩
    | some loc =>
      rw [process_search_effects lookup ledger un up cache m loc hk hl] at heff
      simp at heff

/-- Claim C8 witness: the help path ("hello" from the initial state)
routed twice gives the identical response and no effects. -/
theorem C8_idle_route_idempotent_witness :
    (process_message stubLookup stubLedger
        (process_message stubLookup stubLedger ChatbotState.init "hello").state
        "hello").response
      = (process_message stubLookup stubLedger ChatbotState.init "hello").response
    ∧ (process_message stubLookup stubLedger
        (process_message stubLookup stubLedger ChatbotState.init "hello").state
        "hello").effects
      = [] :=
  C8_idle_route_idempotent stubLookup stubLedger ChatbotState.init "hello" rfl rfl

/-- Claim C5: the router's branches apply in fixed order with first
match winning: with a pending step active the message is consumed as
that step's answer (in particular the lookup client is never invoked,
even for keyword-bearing messages); with no pending step, a
search-keyword message lacking an "in " marker yields the clarification
prompt with no client call; and with no pending step and no keyword the
generic help text is returned with the whole state unchanged. -/
theorem C5_router_priority (lookup : String → FindResponse)
    (ledger : Option String → Option String → List Organization → LogResult)
    (s : ChatbotState) (m : String) :
    (pendingActive s.conversation_context = true →
        ((process_message lookup ledger s m).effects.filter isLookupCall) = [])
    ∧ (s.conversation_context.awaiting_user_name = true →
        (process_message lookup ledger s m).state.conversation_context.user_name = some m
        ∧ (process_message lookup ledger s m).effects = [])
    ∧ (s.conversation_context.awaiting_user_name = false →
        s.conversation_context.awaiting_user_phone = true →
        (process_message lookup ledger s m).effects
          = [Effect.ledgerCall s.conversation_context.user_name (some m) s.cached_organizations])
    ∧ (s.conversation_context.awaiting_user_name = false →
        s.conversation_context.awaiting_user_phone = false →
        s.conversation_context.awaiting_log_confirmation = true →
        (process_message lookup ledger s m).effects = [])
    ∧ (pendingActive s.conversation_context = false →
        hasSearchKeyword (pyStrip (strToLower m)) = true →
        extractLocation m = none →
        (process_message lookup ledger s m).response
          = "I can help with that! Please tell me the city you are in, for example: 'I want to donate in Delhi'."
        ∧ (process_message lookup ledger s m).effects = [])
    ∧ (pendingActive s.conversation_context = false →
        hasSearchKeyword (pyStrip (strToLower m)) = false →
        (process_message lookup ledger s m).response
          = "I can help you find food donation centers. Please tell me what city you're in, like 'Where can I donate food in Delhi?'"
        ∧ (process_message lookup ledger s m).state = s
        ∧ (process_message lookup ledger s m).effects = []) := by
  obtain ⟨⟨a, b, c, un, up⟩, cache⟩ := s
  refine ⟨?_, ?_, ?_, ?_, ?_, ?_⟩
  · intro hp
    cases a with
    | true => rw [process_name_branch]; rfl
    | false =>
      cases b with
      | true => rw [process_phone_branch]; simp [List.filter, isLookupCall]
      | false =>
        cases c with
        | true =>
          by_cases hm : pyStrip (strToLower m) = "yes"
          · rw [process_confirm_yes lookup ledger un up cache m hm]; rfl
          · rw [process_confirm_no lookup ledger un up cache m hm]; rfl
        | false => simp [pendingActive] at hp
  · intro ha
    cases a with
    | false => simp at ha
    | true => rw [process_name_branch]; exact ⟨rfl, rfl⟩
  · intro ha hb
    cases a with
    | true => simp at ha
    | false =>
      cases b with
      | false => simp at hb
      | true => rw [process_phone_branch]
  · intro ha hb hc
    cases a with
    | true => simp at ha
    | false =>
      cases b with
      | true => simp at hb
      | false =>
        cases c with
        | false => simp at hc
        | true =>
          by_cases hm : pyStrip (strToLower m) = "yes"
          · rw [process_confirm_yes lookup ledger un up cache m hm]
          · rw [process_confirm_no lookup ledger un up cache m hm]
  · intro hp hk hl
    obtain ⟨ha, hb, hc⟩ : a = false ∧ b = false ∧ c = false := by
      simp only [pendingActive] at hp
      cases a <;> cases b <;> cases c <;> simp_all
    subst ha
    subst hb
    subst hc
    rw [process_clarify lookup ledger un up cache m hk hl]
    exact ⟨rfl, rfl⟩
  · intro hp hk
    obtain ⟨ha, hb, hc⟩ : a = false ∧ b = false ∧ c = false := by
      simp only [pendingActive] at hp
      cases a <;> cases b <;> cases c <;> simp_all
    subst ha
    subst hb
    subst hc
    rw [process_help lookup ledger un up cache m hk]
    exact ⟨rfl, rfl, rfl⟩

/-- Claim C5 witness: in AWAITING_NAME even a keyword-bearing message
is consumed as the name answer with no client call, and from the
initial state a keyword-free message returns the help text with the
state unchanged. -/
theorem C5_router_priority_witness :
    ((process_message stubLookup stubLedger
          ⟨⟨true, false, false, none, none⟩, []⟩
          "find food in Delhi").state.conversation_context.user_name
        = some "find food in Delhi"
      ∧ (process_message stubLookup stubLedger
          ⟨⟨true, false, false, none, none⟩, []⟩ "find food in Delhi").effects = [])
    ∧ ((process_message stubLookup stubLedger ChatbotState.init "hello").response
        = "I can help you find food donation centers. Please tell me what city you're in, like 'Where can I donate food in Delhi?'"
      ∧ (process_message stubLookup stubLedger ChatbotState.init "hello").state
        = ChatbotState.init
      ∧ (process_message stubLookup stubLedger ChatbotState.init "hello").effects = []) :=
  ⟨(C5_router_priority stubLookup stubLedger
      ⟨⟨true, false, false, none, none⟩, []⟩ "find food in Delhi").2.1 rfl,
   (C5_router_priority stubLookup stubLedger ChatbotState.init "hello").2.2.2.2.2
     rfl (by decide)⟩

/-- The states reachable from the freshly initialised chatbot by
routing messages, with the external clients free to answer differently
on every turn. -/
inductive Reachable : ChatbotState → Prop where
  | init : Reachable ChatbotState.init
  | step (lookup : String → FindResponse)
      (ledger : Option String → Option String → List Organization → LogResult)
      (s : ChatbotState) (m : String) :
      Reachable s → Reachable (process_message lookup ledger s m).state

/-- The number of active pending-step flags of a conversation context. -/
def flagCount (c : ConvContext) : Nat :=
  (cond c.awaiting_user_name 1 0) + (cond c.awaiting_user_phone 1 0)
    + (cond c.awaiting_log_confirmation 1 0)

/-- The conversation-context invariant: at most one pending flag, the
phone-collection flag presupposes a collected name, and a stored phone
presupposes a stored name. -/
def ctxInvariant (c : ConvContext) : Prop :=
  flagCount c ≤ 1
  ∧ (c.awaiting_user_phone = true → c.user_name.isSome = true)
  ∧ (c.user_phone.isSome = true → c.user_name.isSome = true)

theorem ctxInvariant_init : ctxInvariant ConvContext.init := by
  refine ⟨by decide, ?_, ?_⟩ <;> intro h <;> exact h

/-- One routing step preserves the conversation-context invariant. -/
theorem ctxInvariant_step (lookup : String → FindResponse)
    (ledger : Option String → Option String → List Organization → LogResult)
    (s : ChatbotState) (m : String)
    (hinv : ctxInvariant s.conversation_context) :
    ctxInvariant (process_message lookup ledger s m).state.conversation_context := by
  obtain ⟨⟨a, b, c, un, up⟩, cache⟩ := s
  cases a with
  | true =>
    obtain ⟨hb, hc⟩ : b = false ∧ c = false := by
      have h1 := hinv.1
      cases b <;> cases c <;> simp_all [flagCount]
    subst hb
    subst hc
    rw [process_name_branch]
    exact ⟨by simp [flagCount], fun _ => rfl, fun _ => rfl⟩
  | false =>
    cases b with
    | true =>
      rw [process_phone_branch]
      exact ctxInvariant_init
    | false =>
      cases c with
      | true =>
        by_cases hm : pyStrip (strToLower m) = "yes"
        · rw [process_confirm_yes lookup ledger un up cache m hm]
          exact ⟨by simp [flagCount], by intro h; simp at h, hinv.2.2⟩
        · rw [process_confirm_no lookup ledger un up cache m hm]
          exact ctxInvariant_init
      | false =>
        cases hk : hasSearchKeyword (pyStrip (strToLower m)) with
        | false =>
          rw [process_help lookup ledger un up cache m hk]
          exact hinv
        | true =>
          cases hl : extractLocation m with
          | none =>
            rw [process_clarify lookup ledger un up cache m hk hl]
            exact hinv
          | some loc =>
            cases hr : lookup loc with
            | recipients orgs =>
              cases ho : orgs.isEmpty with
              | false =>
                rw [process_search_hit lookup ledger un up cache m loc orgs hk hl hr ho]
                exact ⟨by simp [flagCount], by intro h; simp at h, hinv.2.2⟩
              | true =>
                have hf : ∀ orgs', lookup loc = .recipients orgs' → orgs' = [] := by
                  intro orgs' hr'
                  rw [hr] at hr'
                  injection hr' with h
                  subst h
                  exact isEmpty_true_eq_nil ho
                rw [process_search_miss lookup ledger un up cache m loc hk hl hf]
                exact hinv
            | errorResp e =>
              have hf : ∀ orgs', lookup loc = .recipients orgs' → orgs' = [] := by
                intro orgs' hr'
                rw [hr] at hr'
                simp at hr'
              rw [process_search_miss lookup ledger un up cache m loc hk hl hf]
              exact hinv
            | apiError e =>
              have hf : ∀ orgs', lookup loc = .recipients orgs' → orgs' = [] := by
                intro orgs' hr'
                rw [hr] at hr'
                simp at hr'
              rw [process_search_miss lookup ledger un up cache m loc hk hl hf]
              exact hinv
            | messageResp msg =>
              have hf : ∀ orgs', lookup loc = .recipients orgs' → orgs' = [] := by
                intro orgs' hr'
                rw [hr] at hr'
                simp at hr'
              rw [process_search_miss lookup ledger un up cache m loc hk hl hf]
              exact hinv

/-- Claim C6: in every state reachable from the initial conversation
state by routing messages, at most one pending-step flag is active, and
the donor phone is only ever set when the donor name is set. -/
theorem C6_reachable_invariant (s : ChatbotState) (h : Reachable s) :
    flagCount s.conversation_context ≤ 1
    ∧ (s.conversation_context.user_phone.isSome = true →
        s.conversation_context.user_name.isSome = true) := by
  have hinv : ctxInvariant s.conversation_context := by
    induction h with
    | init => exact ctxInvariant_init
    | step lookup ledger s' m' _ ih => exact ctxInvariant_step lookup ledger s' m' ih
  exact ⟨hinv.1, hinv.2.2⟩

/-- Claim C6 witness: the invariant instantiated at a concrete
reachable state, two routing steps from the initial state. -/
theorem C6_reachable_invariant_witness :
    flagCount (process_message stubLookup stubLedger
        (process_message stubLookup stubLedger ChatbotState.init "hello").state
        "hi").state.conversation_context ≤ 1
    ∧ ((process_message stubLookup stubLedger
        (process_message stubLookup stubLedger ChatbotState.init "hello").state
        "hi").state.conversation_context.user_phone.isSome = true →
      (process_message stubLookup stubLedger
        (process_message stubLookup stubLedger ChatbotState.init "hello").state
        "hi").state.conversation_context.user_name.isSome = true) :=
  C6_reachable_invariant _
    (Reachable.step stubLookup stubLedger _ "hi"
      (Reachable.step stubLookup stubLedger ChatbotState.init "hello" Reachable.init))

/-- The three response shapes claimed for the lookup client: a
recipients list of at most 5, an error string, or an api_error record. -/
def isThreeShape : FindResponse → Bool
  | .recipients orgs => decide (orgs.length ≤ 5)
  | .errorResp _ => true
  | .apiError _ => true
  | .messageResp _ => false

/-- The environment of the C7 counterexample: API key present, no
exception, geocode succeeds, but the nearby search returns no places. -/
def lookupEnvNoPlaces : LookupEnv := ⟨some "key", none, true, []⟩

/-- Claim C7 counterexample: with a valid key and a successful but
empty places search, `find_recipients` produces the fourth shape
`{"message": ...}` (line 91 of src/main.py), which is none of the three
shapes the claim enumerates. -/
theorem C7_message_shape_counterexample :
    find_recipients lookupEnvNoPlaces "Springfield"
      = .messageResp "No organizations found via Google Places API."
    ∧ isThreeShape (find_recipients lookupEnvNoPlaces "Springfield") = false :=
  ⟨rfl, rfl⟩

theorem find_recipients_recipients_facts (env : LookupEnv) (loc : String)
    (orgs : List Organization)
    (h : find_recipients env loc = .recipients orgs) :
    orgs ≠ [] ∧ orgs.length ≤ 5 := by
  cases hk : env.api_key with
  | none => simp [find_recipients, hk] at h
  | some k =>
    cases he : env.api_exception with
    | some e => simp [find_recipients, hk, he] at h
    | none =>
      cases hg : env.geocode_nonempty with
      | false => simp [find_recipients, hk, he, hg] at h
      | true =>
        simp only [find_recipients, hk, he, hg, Bool.not_true, Bool.false_eq_true,
          if_false] at h
        split at h
        · exact absurd h (by simp)
        · rename_i hd
          injection h with h2
          subst h2
          refine ⟨?_, ?_⟩
          · intro hnil
            rw [hnil] at hd
            exact hd rfl
          · calc (((env.nearby_results.take 5).filter
                    (fun p => p.place_id.isSome)).map orgOfPlace).length
                = ((env.nearby_results.take 5).filter
                    (fun p => p.place_id.isSome)).length := List.length_map _ _
              _ ≤ (env.nearby_results.take 5).length := List.length_filter_le _ _
              _ ≤ 5 := by simp [List.length_take]

theorem find_recipients_message_fixed (env : LookupEnv) (loc : String)
    (msg : String)
    (h : find_recipients env loc = .messageResp msg) :
    msg = "No organizations found via Google Places API." := by
  cases hk : env.api_key with
  | none => simp [find_recipients, hk] at h
  | some k =>
    cases he : env.api_exception with
    | some e => simp [find_recipients, hk, he] at h
    | none =>
      cases hg : env.geocode_nonempty with
      | false => simp [find_recipients, hk, he, hg] at h
      | true =>
        simp only [find_recipients, hk, he, hg, Bool.not_true, Bool.false_eq_true,
          if_false] at h
        split at h
        · injection h with h2
          exact h2.symm
        · exact absurd h (by simp)

/-- Claim C7 (amended): every `find_recipients` response is one of
exactly four shapes: a non-empty recipients list of at most 5
organizations, an error string, an api_error record with an error
string, or the fixed no-organizations message string. -/
theorem C7_response_shapes (env : LookupEnv) (loc : String) :
    (∃ orgs, find_recipients env loc = .recipients orgs ∧ orgs ≠ [] ∧ orgs.length ≤ 5)
    ∨ (∃ e, find_recipients env loc = .errorResp e)
    ∨ (∃ e, find_recipients env loc = .apiError e)
    ∨ find_recipients env loc
        = .messageResp "No organizations found via Google Places API." := by
  cases hres : find_recipients env loc with
  | recipients orgs =>
    left
    obtain ⟨h1, h2⟩ := find_recipients_recipients_facts env loc orgs hres
    exact ⟨orgs, rfl, h1, h2⟩
  | errorResp e =>
    right; left
    exact ⟨e, rfl⟩
  | apiError e =>
    right; right; left
    exact ⟨e, rfl⟩
  | messageResp msg =>
    right; right; right
    rw [find_recipients_message_fixed env loc msg hres]

end Plateful
